import Mathlib

/-!
Verification of the AML graph scoring service.

Shallow embedding of the repository:
  - `src/app/feature_builder.py` : the feature store client (`get_graph_features`);
  - `src/app/main.py`            : the scoring endpoint (`score_transaction`), the
    subgraph endpoint (`get_account_subgraph`) and the health check (`health_check`);
  - `src/app/model_loader.py`    : the model artifact loader;
  - `src/ml/build_dataset.py`    : the offline dataset builder (two pandas left merges);
  - `src/ml/train_model.py`      : the trainer's feature-column selection and
    zero imputation.

Numeric values are modelled as `ℚ`.  A Neo4j node property that may be null is an
`Option ℚ`.  The external graph store is an oracle: for the feature client a partial
map from account id to the stored `Account` node, for the subgraph endpoint a function
from (cypher text, parameter, limit) to result rows.  Effects of a request are traced
as an explicit event list (store reads, store writes, model invocations) so that frame
properties are statable.
-/

namespace AML

/-- A stored `Account` node; every property can be absent (null) in the store. -/
structure AccountNode where
  pagerank : Option ℚ
  degree : Option ℚ
  betweenness : Option ℚ
  community : Option ℚ
deriving Repr, DecidableEq

/-- The graph store as seen through `MATCH (a:Account {id: $id}) ... .single()`:
a partial map from account id to the matched node. -/
abbrev GraphStore := String → Option AccountNode

/-- The record returned by `get_graph_features` (`feature_builder.py`): the three
centrality properties, each possibly null when the node exists but lacks it. -/
structure FeatureRecord where
  pagerank : Option ℚ
  degree : Option ℚ
  betweenness : Option ℚ
deriving Repr, DecidableEq

/-- Observable effects of handling one request. -/
inductive Event where
  | storeRead (cypher : String) (param : String)
  | storeWrite (cypher : String) (param : String)
  | modelInvoke (featureVec : List (Option ℚ))
deriving Repr, DecidableEq

def Event.isStoreRead : Event → Bool
  | .storeRead _ _ => true
  | _ => false

def Event.isStoreWrite : Event → Bool
  | .storeWrite _ _ => true
  | _ => false

/-- The cypher text issued by `get_graph_features` (`feature_builder.py`, lines 11-16). -/
def account_features_cypher : String :=
  "MATCH (a:Account \x7bid: $id\x7d) RETURN a.pagerank AS pagerank, a.degree AS degree, a.betweenness AS betweenness"

/-- `feature_builder.py::get_graph_features`: one parameterized read; if the query
matched a node, `dict(res)` returns its properties verbatim, otherwise the literal
all-zero record is substituted.  The second component traces the session activity. -/
def get_graph_features (store : GraphStore) (account_id : String) :
    FeatureRecord × List Event :=
  (match store account_id with
    | some a => { pagerank := a.pagerank, degree := a.degree, betweenness := a.betweenness }
    | none => { pagerank := some 0, degree := some 0, betweenness := some 0 },
   [Event.storeRead account_features_cypher account_id])

/-- `app.schemas.Transaction` as used by `main.py::score_transaction`. -/
structure Transaction where
  nameOrig : String
  nameDest : String
  amount : ℚ
deriving Repr, DecidableEq

/-- The opaque classifier: `predict_proba` maps a batch row to a matrix of
class-membership probabilities (`main.py` reads entry `[0][1]`). -/
structure Model where
  predict_proba : List (Option ℚ) → List (List ℚ)

/-- The contract of a probabilistic binary classifier: on every input,
`predict_proba` yields one row of two class probabilities summing to 1. -/
def ProbaOk (m : Model) : Prop :=
  ∀ v, ∃ p0 p1, m.predict_proba v = [[p0, p1]] ∧ 0 ≤ p0 ∧ 0 ≤ p1 ∧ p0 + p1 = 1

/-- The state the running service closes over: the graph store handle and the
model artifact loaded at startup. -/
structure ServiceState where
  store : GraphStore
  model : Model

/-- Response body of `POST /score`. -/
structure ScoreResponse where
  risk_score : ℚ
deriving Repr, DecidableEq

/-- The feature vector assembled by `main.py::score_transaction` (lines 24-30), in
source order: `[tx.amount, src.pagerank, dst.pagerank, src.degree, dst.degree,
src.betweenness, dst.betweenness]`. -/
def serving_feature_vector (amount : ℚ) (src dst : FeatureRecord) : List (Option ℚ) :=
  [some amount, src.pagerank, dst.pagerank, src.degree, dst.degree,
   src.betweenness, dst.betweenness]

/-- `main.py::score_transaction`: fetch features for both endpoint accounts, build
the vector, read `predict_proba(features)[0][1]`.  `none` in the first component is
a Python `IndexError` on that double index; the trace and the (unchanged) state are
returned alongside. -/
def score_transaction (st : ServiceState) (tx : Transaction) :
    Option ScoreResponse × List Event × ServiceState :=
  let src := get_graph_features st.store tx.nameOrig
  let dst := get_graph_features st.store tx.nameDest
  let featureVec := serving_feature_vector tx.amount src.1 dst.1
  let risk : Option ℚ := (st.model.predict_proba featureVec)[0]?.bind (fun row => row[1]?)
  (risk.map (fun r => { risk_score := r }),
   src.2 ++ dst.2 ++ [Event.modelInvoke featureVec],
   st)

/-- A raw `POST /score` request body before schema validation.  A field that is
absent from the JSON body, or is not of the declared type (for `amount`: not
numeric), is `none`. -/
structure RawBody where
  nameOrig : Option String
  nameDest : Option String
  amount : Option ℚ
deriving Repr, DecidableEq

/-- Modelled from the spec: `app.schemas.Transaction`, imported by `main.py` from
`app/schemas.py`, which is not among the source files.  Spec, data model: a
transaction request is "origin account identifier, destination account identifier,
amount (non-negative numeric)"; error-handling design (d): "malformed request body —
rejected by input-schema validation before reaching business logic".  Validation
fails when a field is missing or ill-typed, or when the amount is negative. -/
def parse_transaction (b : RawBody) : Except String Transaction :=
  match b.nameOrig, b.nameDest, b.amount with
  | some o, some d, some a =>
      if a < 0 then Except.error "validation error: amount must be non-negative"
      else Except.ok { nameOrig := o, nameDest := d, amount := a }
  | _, _, _ => Except.error "validation error: missing or ill-typed field"

/-- The `POST /score` route as served: the framework validates the body against the
request schema before the handler body runs; only a validated `Transaction` reaches
`score_transaction`. -/
def handle_score (st : ServiceState) (b : RawBody) :
    Except String ScoreResponse × List Event × ServiceState :=
  match parse_transaction b with
  | Except.error e => (Except.error e, [], st)
  | Except.ok tx =>
      match score_transaction st tx with
      | (some resp, evs, st') => (Except.ok resp, evs, st')
      | (none, evs, st') => (Except.error "IndexError", evs, st')

/-! ### Health check (`main.py::health_check`) -/

/-- Outcome of running `RETURN 1 as status` on a session: either the query ran and
`result.single()` yielded a record (a tuple of values, falsy iff empty) or no record,
or the attempt raised an exception with a message. -/
inductive ProbeOutcome where
  | ok (single : Option (List ℚ))
  | exc (msg : String)
deriving Repr

/-- Python truthiness of `result.single()`: `None` is falsy, a record is truthy
iff it is non-empty (records are tuples). -/
def record_truthy : Option (List ℚ) → Bool
  | none => false
  | some r => !r.isEmpty

/-- Response body of `GET /health`. -/
structure HealthResponse where
  status : String
  neo4j : String
  model : String
deriving Repr, DecidableEq

/-- `main.py::health_check`: probe the store inside `try`; on success report
`"connected"`/`"disconnected"` by the truthiness of `result.single()`, on an
exception report `"error: " + str(e)`; `status` and `model` are fixed literals. -/
def health_check (probe : ProbeOutcome) : HealthResponse :=
  match probe with
  | .ok s =>
      { status := "healthy",
        neo4j := if record_truthy s then "connected" else "disconnected",
        model := "loaded" }
  | .exc e =>
      { status := "healthy", neo4j := "error: " ++ e, model := "loaded" }

/-! ### Model artifact loader (`model_loader.py`) -/

/-- The fixed artifact path (`model_loader.py`, line 4). -/
def model_path : String := "models/aml_model.pkl"

/-- The startup error raised when the artifact is absent (`model_loader.py`,
lines 7-13). -/
def missing_model_message : String :=
  "Model file not found at " ++ model_path ++ ". " ++
  "Please train the model first by running:\n" ++
  "  1. python ml/export_features.py\n" ++
  "  2. python ml/build_dataset.py\n" ++
  "  3. python ml/train_model.py"

/-- `model_loader.py`: at import time, check the fixed path; raise
`FileNotFoundError` with the descriptive message when absent, otherwise
`joblib.load` the classifier.  The filesystem is an oracle mapping a path to the
classifier a successful deserialization at that path yields. -/
def load_model (fs : String → Option Model) : Except String Model :=
  match fs model_path with
  | none => Except.error missing_model_message
  | some m => Except.ok m

/-! ### Subgraph endpoint (`main.py::get_account_subgraph`) -/

/-- `depth = max(1, min(depth, 3))` (`main.py`, line 193). -/
def clamp_depth (depth : ℤ) : ℤ := max 1 (min depth 3)

/-- The f-string cypher of the subgraph query, with the clamped depth spliced into
the variable-length pattern (`main.py`, lines 196-208). -/
def subgraph_cypher (depth : ℤ) : String :=
  "MATCH path = (center:Account \x7bid: $account_id\x7d)-[t:TRANSFER*1.." ++ toString depth ++
  "]-(connected:Account) WHERE center.pagerank IS NOT NULL " ++
  "WITH center, connected, relationships(path) as rels LIMIT $limit " ++
  "RETURN center.id AS center_id, center.pagerank AS center_pagerank, " ++
  "center.degree AS center_degree, center.betweenness AS center_betweenness, " ++
  "connected.id AS connected_id, connected.pagerank AS connected_pagerank, " ++
  "connected.degree AS connected_degree, " ++
  "[r in rels | \x7bamount: r.amount, isFraud: r.isFraud\x7d] AS transfers"

/-- One result row of the subgraph query; `transfers` is the list of
(amount, isFraud) pairs along the path. -/
structure SubgraphRow where
  center_id : String
  center_pagerank : Option ℚ
  center_degree : Option ℚ
  center_betweenness : Option ℚ
  connected_id : String
  connected_pagerank : Option ℚ
  connected_degree : Option ℚ
  transfers : List (Option ℚ × Option ℚ)
deriving Repr, DecidableEq

/-- A node dict built by the handler: the center node carries a `betweenness` key
and `type: "center"`, a connected node does not. -/
inductive SubNode where
  | center (id : String) (pagerank degree betweenness : Option ℚ)
  | connected (id : String) (pagerank degree : Option ℚ)
deriving Repr, DecidableEq

def SubNode.id : SubNode → String
  | .center i _ _ _ => i
  | .connected i _ _ => i

/-- An edge dict built by the handler. -/
structure SubEdge where
  source : String
  target : String
  amount : Option ℚ
  isFraud : Option ℚ
deriving Repr, DecidableEq

/-- `nodes_dict[id] = n` guarded by `if id not in nodes_dict`: Python dicts keep
insertion order, so a fresh key is appended. -/
def addSubNode (acc : List SubNode) (n : SubNode) : List SubNode :=
  if acc.any (fun m => m.id == n.id) then acc else acc ++ [n]

/-- The row loop of `get_account_subgraph`: per row, add the center node, add the
connected node, and append one edge per transfer along the path. -/
def process_subgraph_rows (rows : List SubgraphRow) : List SubNode × List SubEdge :=
  rows.foldl
    (fun acc row =>
      let nodes := addSubNode acc.1
        (SubNode.center row.center_id row.center_pagerank row.center_degree
          row.center_betweenness)
      let nodes := addSubNode nodes
        (SubNode.connected row.connected_id row.connected_pagerank row.connected_degree)
      let edges := acc.2 ++ row.transfers.map (fun tr =>
        { source := row.center_id, target := row.connected_id,
          amount := tr.1, isFraud := tr.2 })
      (nodes, edges))
    ([], [])

/-- Response body of `GET /graph/account/\x7bid\x7d`. -/
structure SubgraphResponse where
  center_account : String
  nodes : List SubNode
  edges : List SubEdge
  node_count : Nat
  edge_count : Nat
deriving Repr, DecidableEq

/-- `main.py::get_account_subgraph`: clamp the depth, run the depth-spliced query
against the store (an oracle from cypher text, account id and limit to rows) and
reshape the rows into node/edge collections. -/
def get_account_subgraph (run_query : String → String → ℤ → List SubgraphRow)
    (account_id : String) (depth : ℤ) (limit : ℤ) : SubgraphResponse :=
  let d := clamp_depth depth
  let rows := run_query (subgraph_cypher d) account_id limit
  let ne := process_subgraph_rows rows
  { center_account := account_id, nodes := ne.1, edges := ne.2,
    node_count := ne.1.length, edge_count := ne.2.length }

/-! ### Offline pipeline (`ml/build_dataset.py`, `ml/train_model.py`) -/

/-- A row of `data/raw/transactions.csv`, restricted to the columns the pipeline
reads (other raw columns pass through the merges untouched). -/
structure TxRow where
  nameOrig : String
  nameDest : String
  amount : ℚ
  isFraud : ℚ
deriving Repr, DecidableEq

/-- A row of `data/processed/account_features.csv` as written by
`ml/export_features.py`; a null node property exports as an empty (NaN) cell. -/
structure FeatureCsvRow where
  id : String
  pagerank : Option ℚ
  degree : Option ℚ
  betweenness : Option ℚ
  community : Option ℚ
deriving Repr, DecidableEq

/-- A transaction row after the first merge and rename (`src_*` columns attached,
`id` dropped). -/
structure SrcRow where
  nameOrig : String
  nameDest : String
  amount : ℚ
  isFraud : ℚ
  src_pagerank : Option ℚ
  src_degree : Option ℚ
  src_betweenness : Option ℚ
  src_community : Option ℚ
deriving Repr, DecidableEq

/-- A row of `data/processed/training_dataset.csv`: both merges and renames done. -/
structure DatasetRow where
  nameOrig : String
  nameDest : String
  amount : ℚ
  isFraud : ℚ
  src_pagerank : Option ℚ
  src_degree : Option ℚ
  src_betweenness : Option ℚ
  src_community : Option ℚ
  dst_pagerank : Option ℚ
  dst_degree : Option ℚ
  dst_betweenness : Option ℚ
  dst_community : Option ℚ
deriving Repr, DecidableEq

/-- `tx.merge(features, left_on="nameOrig", right_on="id", how="left")` followed by
the `src_*` rename and the `id` drop, for one left row: every matching feature row
produces an output row; with no match the left row is kept with null feature
columns. -/
def merge_src (t : TxRow) (feats : List FeatureCsvRow) : List SrcRow :=
  match feats.filter (fun f => f.id == t.nameOrig) with
  | [] => [{ nameOrig := t.nameOrig, nameDest := t.nameDest, amount := t.amount,
             isFraud := t.isFraud, src_pagerank := none, src_degree := none,
             src_betweenness := none, src_community := none }]
  | ms => ms.map (fun f =>
      { nameOrig := t.nameOrig, nameDest := t.nameDest, amount := t.amount,
        isFraud := t.isFraud, src_pagerank := f.pagerank, src_degree := f.degree,
        src_betweenness := f.betweenness, src_community := f.community })

/-- The second merge, on `nameDest`, attaching the `dst_*` columns. -/
def merge_dst (s : SrcRow) (feats : List FeatureCsvRow) : List DatasetRow :=
  match feats.filter (fun f => f.id == s.nameDest) with
  | [] => [{ nameOrig := s.nameOrig, nameDest := s.nameDest, amount := s.amount,
             isFraud := s.isFraud, src_pagerank := s.src_pagerank,
             src_degree := s.src_degree, src_betweenness := s.src_betweenness,
             src_community := s.src_community, dst_pagerank := none,
             dst_degree := none, dst_betweenness := none, dst_community := none }]
  | ms => ms.map (fun f =>
      { nameOrig := s.nameOrig, nameDest := s.nameDest, amount := s.amount,
        isFraud := s.isFraud, src_pagerank := s.src_pagerank,
        src_degree := s.src_degree, src_betweenness := s.src_betweenness,
        src_community := s.src_community, dst_pagerank := f.pagerank,
        dst_degree := f.degree, dst_betweenness := f.betweenness,
        dst_community := f.community })

/-- `ml/build_dataset.py`: the two left merges applied to every transaction row,
yielding `data/processed/training_dataset.csv`. -/
def build_dataset (txs : List TxRow) (feats : List FeatureCsvRow) : List DatasetRow :=
  (txs.flatMap (fun t => merge_src t feats)).flatMap (fun s => merge_dst s feats)

/-- The `features` column list of `ml/train_model.py` (lines 8-16). -/
def features : List String :=
  ["amount", "src_pagerank", "dst_pagerank", "src_degree", "dst_degree",
   "src_betweenness", "dst_betweenness"]

/-- Numeric column access on a joined dataset row (`df[...]`); the string
identifier columns are never selected by the trainer.  An empty (NaN) cell reads
as `none`. -/
def DatasetRow.col (r : DatasetRow) : String → Option ℚ
  | "amount" => some r.amount
  | "isFraud" => some r.isFraud
  | "src_pagerank" => r.src_pagerank
  | "src_degree" => r.src_degree
  | "src_betweenness" => r.src_betweenness
  | "src_community" => r.src_community
  | "dst_pagerank" => r.dst_pagerank
  | "dst_degree" => r.dst_degree
  | "dst_betweenness" => r.dst_betweenness
  | "dst_community" => r.dst_community
  | _ => none

/-- One row of `X = df[features].fillna(0)` (`ml/train_model.py`, line 17): the
feature columns selected in the listed order, with NaN imputed to 0. -/
def trainer_row (r : DatasetRow) : List ℚ :=
  features.map (fun c => (r.col c).getD 0)

/-- The joined dataset row that corresponds to one scoring request: the raw
transaction fields together with the per-side feature records as the export of the
same store state would deliver them. -/
def joined_row_of (tx : Transaction) (isFraud : ℚ) (src dst : FeatureRecord)
    (src_community dst_community : Option ℚ) : DatasetRow :=
  { nameOrig := tx.nameOrig, nameDest := tx.nameDest, amount := tx.amount,
    isFraud := isFraud, src_pagerank := src.pagerank, src_degree := src.degree,
    src_betweenness := src.betweenness, src_community := src_community,
    dst_pagerank := dst.pagerank, dst_degree := dst.degree,
    dst_betweenness := dst.betweenness, dst_community := dst_community }

/-! ### Fixtures used by witnesses -/

/-- A store with no accounts. -/
def emptyStore : GraphStore := fun _ => none

/-- A node whose `betweenness` property is null. -/
def nodeA : AccountNode :=
  { pagerank := some 2, degree := some 4, betweenness := none, community := some 7 }

/-- A store holding exactly the node `nodeA` under id `"A1"`. -/
def storeA : GraphStore := fun i => if i == "A1" then some nodeA else none

/-- A classifier that puts all probability mass on the non-fraud class. -/
def constModel : Model := { predict_proba := fun _ => [[1, 0]] }

/-- A service state over the empty store and the constant classifier. -/
def st0 : ServiceState := { store := emptyStore, model := constModel }

/-- A concrete transaction request. -/
def tx0 : Transaction := { nameOrig := "A1", nameDest := "B1", amount := 10 }

/-- `needle` occurs verbatim inside `hay`. -/
def mentions (needle hay : String) : Prop :=
  ∃ pre post, hay = pre ++ needle ++ post

/-! ### Claims -/

/-- C1: the feature vector assembled by the scoring endpoint is exactly the
7-element ordered tuple `[amount, src_pagerank, dst_pagerank, src_degree,
dst_degree, src_betweenness, dst_betweenness]`, in the same field order that the
offline trainer selects its feature columns: for every transaction and every pair
of per-side feature records, the served vector (read with the trainer's zero
imputation) coincides positionally with the trainer's row over the corresponding
joined dataset row. -/
theorem feature_order_matches_trainer (tx : Transaction) (isFraud : ℚ)
    (src dst : FeatureRecord) (sc dc : Option ℚ) :
    (serving_feature_vector tx.amount src dst).map (fun x => x.getD 0) =
      trainer_row (joined_row_of tx isFraud src dst sc dc) := by
  rfl

/-- C2: for every account id the store has no `Account` node for,
`get_graph_features` returns the record `{pagerank: 0, degree: 0, betweenness: 0}`
instead of failing. -/
theorem missing_account_zero_record (store : GraphStore) (account_id : String)
    (h : store account_id = none) :
    (get_graph_features store account_id).1 =
      { pagerank := some 0, degree := some 0, betweenness := some 0 } := by
  simp [get_graph_features, h]

/-- Witness for C2 at the empty store. -/
theorem missing_account_zero_record_witness :
    (get_graph_features emptyStore "C9999").1 =
      { pagerank := some 0, degree := some 0, betweenness := some 0 } :=
  missing_account_zero_record emptyStore "C9999" rfl

/-- C10: when the `Account` node exists, `get_graph_features` returns its stored
`pagerank`, `degree` and `betweenness` verbatim — including `null` for a property
the node lacks; zero substitution never applies to an existing node. -/
theorem present_account_verbatim (store : GraphStore) (account_id : String)
    (a : AccountNode) (h : store account_id = some a) :
    (get_graph_features store account_id).1 =
      { pagerank := a.pagerank, degree := a.degree, betweenness := a.betweenness } := by
  simp [get_graph_features, h]

/-- Witness for C10 at a node whose `betweenness` is null: the null comes back
verbatim, not as 0. -/
theorem present_account_verbatim_witness :
    (get_graph_features storeA "A1").1 =
      { pagerank := some 2, degree := some 4, betweenness := none } :=
  present_account_verbatim storeA "A1" nodeA (by simp [storeA])

/-- C4: `GET /graph/account/\x7bid\x7d` clamps the effective traversal depth into
1..3 for every requested depth, and a request with `depth=4` produces exactly the
response of `depth=3`, whatever the store returns. -/
theorem subgraph_depth_clamped (run_query : String → String → ℤ → List SubgraphRow)
    (account_id : String) (limit depth : ℤ) :
    1 ≤ clamp_depth depth ∧ clamp_depth depth ≤ 3 ∧
    get_account_subgraph run_query account_id 4 limit =
      get_account_subgraph run_query account_id 3 limit := by
  refine ⟨le_max_left 1 _, max_le (by norm_num) (min_le_right _ _), ?_⟩
  have h : clamp_depth 4 = clamp_depth 3 := by decide
  simp [get_account_subgraph, h]

/-- C5: `GET /health` never raises: on every probe outcome (success with or
without a record, or an exception) it returns a response whose `neo4j` field is
`"connected"`, `"disconnected"`, or a string beginning with `"error: "`, and whose
`status` and `model` fields are always `"healthy"` and `"loaded"`. -/
theorem health_check_never_raises (probe : ProbeOutcome) :
    (health_check probe).status = "healthy" ∧ (health_check probe).model = "loaded" ∧
    ((health_check probe).neo4j = "connected" ∨
     (health_check probe).neo4j = "disconnected" ∨
     ∃ msg, (health_check probe).neo4j = "error: " ++ msg) := by
  cases probe with
  | ok s =>
      cases h : record_truthy s
      · exact ⟨rfl, rfl, Or.inr (Or.inl (by simp [health_check, h]))⟩
      · exact ⟨rfl, rfl, Or.inl (by simp [health_check, h])⟩
  | exc e => exact ⟨rfl, rfl, Or.inr (Or.inr ⟨e, rfl⟩)⟩

/-- C3: on every transaction request the scoring endpoint issues exactly two
feature-store reads — one for the origin account, one for the destination — then
invokes the model's probability function on the assembled vector and returns as
`risk_score` the entry at index 1 of the first row of `predict_proba`, a value in
[0, 1] whenever the model satisfies the probabilistic-classifier contract. -/
theorem score_endpoint_contract (st : ServiceState) (tx : Transaction)
    (h : ProbaOk st.model) :
    ∃ p0 p1,
      st.model.predict_proba (serving_feature_vector tx.amount
        (get_graph_features st.store tx.nameOrig).1
        (get_graph_features st.store tx.nameDest).1) = [[p0, p1]] ∧
      (score_transaction st tx).1 = some { risk_score := p1 } ∧
      0 ≤ p1 ∧ p1 ≤ 1 ∧
      (score_transaction st tx).2.1 =
        [Event.storeRead account_features_cypher tx.nameOrig,
         Event.storeRead account_features_cypher tx.nameDest,
         Event.modelInvoke (serving_feature_vector tx.amount
           (get_graph_features st.store tx.nameOrig).1
           (get_graph_features st.store tx.nameDest).1)] := by
  obtain ⟨p0, p1, hp, h0, h1, hsum⟩ :=
    h (serving_feature_vector tx.amount
        (get_graph_features st.store tx.nameOrig).1
        (get_graph_features st.store tx.nameDest).1)
  refine ⟨p0, p1, hp, ?_, h1, by linarith, ?_⟩
  · simp [score_transaction, hp]
  · simp [score_transaction, get_graph_features]

/-- Witness for C3 at a concrete state and request: the constant classifier
satisfies the contract and the endpoint returns its fraud-class mass. -/
theorem score_endpoint_contract_witness :
    ∃ p0 p1,
      st0.model.predict_proba (serving_feature_vector tx0.amount
        (get_graph_features st0.store tx0.nameOrig).1
        (get_graph_features st0.store tx0.nameDest).1) = [[p0, p1]] ∧
      (score_transaction st0 tx0).1 = some { risk_score := p1 } ∧
      0 ≤ p1 ∧ p1 ≤ 1 ∧
      (score_transaction st0 tx0).2.1 =
        [Event.storeRead account_features_cypher tx0.nameOrig,
         Event.storeRead account_features_cypher tx0.nameDest,
         Event.modelInvoke (serving_feature_vector tx0.amount
           (get_graph_features st0.store tx0.nameOrig).1
           (get_graph_features st0.store tx0.nameDest).1)] :=
  score_endpoint_contract st0 tx0
    (fun _ => ⟨1, 0, rfl, by norm_num, le_refl 0, by norm_num⟩)

/-- C8: handling a scoring request performs exactly two store reads and no store
writes, and returns the service state unchanged: nothing observable by a later
request is modified. -/
theorem score_frame_effects (st : ServiceState) (tx : Transaction) :
    ((score_transaction st tx).2.1.filter Event.isStoreRead) =
      [Event.storeRead account_features_cypher tx.nameOrig,
       Event.storeRead account_features_cypher tx.nameDest] ∧
    ((score_transaction st tx).2.1.filter Event.isStoreWrite) = [] ∧
    (score_transaction st tx).2.2 = st := by
  refine ⟨?_, ?_, rfl⟩ <;>
    simp [score_transaction, get_graph_features, Event.isStoreRead, Event.isStoreWrite]

set_option maxRecDepth 8192 in
/-- C6: if the artifact file is absent at the fixed path, startup fails with an
error naming the three offline steps (export features, build dataset, train
model); if it is present, the deserialized classifier is the one held by the
service, and no request handling replaces it. -/
theorem load_model_startup (fs : String → Option Model) :
    (fs model_path = none →
      load_model fs = Except.error missing_model_message ∧
      mentions "ml/export_features.py" missing_model_message ∧
      mentions "ml/build_dataset.py" missing_model_message ∧
      mentions "ml/train_model.py" missing_model_message) ∧
    (∀ m, fs model_path = some m →
      load_model fs = Except.ok m ∧
      ∀ st tx, st.model = m → ((score_transaction st tx).2.2).model = m) := by
  constructor
  · intro h
    refine ⟨by simp [load_model, h], ?_, ?_, ?_⟩
    · exact ⟨"Model file not found at models/aml_model.pkl. Please train the model first by running:\n  1. python ",
             "\n  2. python ml/build_dataset.py\n  3. python ml/train_model.py", by decide⟩
    · exact ⟨"Model file not found at models/aml_model.pkl. Please train the model first by running:\n  1. python ml/export_features.py\n  2. python ",
             "\n  3. python ml/train_model.py", by decide⟩
    · exact ⟨"Model file not found at models/aml_model.pkl. Please train the model first by running:\n  1. python ml/export_features.py\n  2. python ml/build_dataset.py\n  3. python ",
             "", by decide⟩
  · intro m h
    exact ⟨by simp [load_model, h], fun st tx hm => hm⟩

/-- Witness for C6 on a filesystem without the artifact. -/
theorem load_model_startup_witness :
    load_model (fun _ => none) = Except.error missing_model_message ∧
    mentions "ml/export_features.py" missing_model_message ∧
    mentions "ml/build_dataset.py" missing_model_message ∧
    mentions "ml/train_model.py" missing_model_message :=
  (load_model_startup (fun _ => none)).1 rfl

/-- C9: a malformed `POST /score` body — a missing or ill-typed field, and in
particular a negative amount — is rejected by schema validation before any
feature fetch or model invocation: the handler returns the validation error with
an empty effect trace and the state untouched. -/
theorem malformed_body_rejected (st : ServiceState) (b : RawBody) (e : String)
    (h : parse_transaction b = Except.error e) :
    handle_score st b = (Except.error e, [], st) ∧
    ∀ (o d : String) (a : ℚ), a < 0 →
      ∃ msg, parse_transaction
        { nameOrig := some o, nameDest := some d, amount := some a } =
          Except.error msg := by
  refine ⟨by simp [handle_score, h], ?_⟩
  intro o d a ha
  exact ⟨"validation error: amount must be non-negative", by simp [parse_transaction, ha]⟩

/-- A request body whose amount is negative. -/
def badBody : RawBody :=
  { nameOrig := some "A1", nameDest := some "B1", amount := some (-1) }

/-- Witness for C9 at a concrete malformed body. -/
theorem malformed_body_rejected_witness :
    handle_score st0 badBody =
      (Except.error "validation error: amount must be non-negative", [], st0) :=
  (malformed_body_rejected st0 badBody
      "validation error: amount must be non-negative"
      (by norm_num [parse_transaction, badBody])).1

/-- The first merge is a left join: every transaction row yields at least one
output row carrying its fields, with null `src_*` columns when no feature row
matches the origin. -/
theorem merge_src_exists (t : TxRow) (feats : List FeatureCsvRow) :
    ∃ s ∈ merge_src t feats,
      s.nameOrig = t.nameOrig ∧ s.nameDest = t.nameDest ∧ s.amount = t.amount ∧
      s.isFraud = t.isFraud ∧
      ((∀ f ∈ feats, f.id ≠ t.nameOrig) →
        s.src_pagerank = none ∧ s.src_degree = none ∧ s.src_betweenness = none) := by
  cases hf : feats.filter (fun f => f.id == t.nameOrig) with
  | nil =>
      refine ⟨{ nameOrig := t.nameOrig, nameDest := t.nameDest, amount := t.amount,
                isFraud := t.isFraud, src_pagerank := none, src_degree := none,
                src_betweenness := none, src_community := none },
              ?_, rfl, rfl, rfl, rfl, fun _ => ⟨rfl, rfl, rfl⟩⟩
      simp [merge_src, hf]
  | cons f fs =>
      refine ⟨{ nameOrig := t.nameOrig, nameDest := t.nameDest, amount := t.amount,
                isFraud := t.isFraud, src_pagerank := f.pagerank,
                src_degree := f.degree, src_betweenness := f.betweenness,
                src_community := f.community },
              ?_, rfl, rfl, rfl, rfl, fun hno => ?_⟩
      · simp only [merge_src, hf]
        exact List.mem_map_of_mem _ (List.mem_cons_self f fs)
      · have hm : f ∈ feats.filter (fun f => f.id == t.nameOrig) := by
          rw [hf]; exact List.mem_cons_self f fs
        rw [List.mem_filter] at hm
        exact absurd (by simpa using hm.2) (hno f hm.1)

/-- The second merge is a left join: every intermediate row yields at least one
output row carrying its fields (the `src_*` columns included), with null `dst_*`
columns when no feature row matches the destination. -/
theorem merge_dst_exists (s : SrcRow) (feats : List FeatureCsvRow) :
    ∃ r ∈ merge_dst s feats,
      r.nameOrig = s.nameOrig ∧ r.nameDest = s.nameDest ∧ r.amount = s.amount ∧
      r.isFraud = s.isFraud ∧ r.src_pagerank = s.src_pagerank ∧
      r.src_degree = s.src_degree ∧ r.src_betweenness = s.src_betweenness ∧
      ((∀ f ∈ feats, f.id ≠ s.nameDest) →
        r.dst_pagerank = none ∧ r.dst_degree = none ∧ r.dst_betweenness = none) := by
  cases hf : feats.filter (fun f => f.id == s.nameDest) with
  | nil =>
      refine ⟨{ nameOrig := s.nameOrig, nameDest := s.nameDest, amount := s.amount,
                isFraud := s.isFraud, src_pagerank := s.src_pagerank,
                src_degree := s.src_degree, src_betweenness := s.src_betweenness,
                src_community := s.src_community, dst_pagerank := none,
                dst_degree := none, dst_betweenness := none, dst_community := none },
              ?_, rfl, rfl, rfl, rfl, rfl, rfl, rfl, fun _ => ⟨rfl, rfl, rfl⟩⟩
      simp [merge_dst, hf]
  | cons f fs =>
      refine ⟨{ nameOrig := s.nameOrig, nameDest := s.nameDest, amount := s.amount,
                isFraud := s.isFraud, src_pagerank := s.src_pagerank,
                src_degree := s.src_degree, src_betweenness := s.src_betweenness,
                src_community := s.src_community, dst_pagerank := f.pagerank,
                dst_degree := f.degree, dst_betweenness := f.betweenness,
                dst_community := f.community },
              ?_, rfl, rfl, rfl, rfl, rfl, rfl, rfl, fun hno => ?_⟩
      · simp only [merge_dst, hf]
        exact List.mem_map_of_mem _ (List.mem_cons_self f fs)
      · have hm : f ∈ feats.filter (fun f => f.id == s.nameDest) := by
          rw [hf]; exact List.mem_cons_self f fs
        rw [List.mem_filter] at hm
        exact absurd (by simpa using hm.2) (hno f hm.1)

/-- C7: the dataset builder's two merges are left joins — every input transaction
row appears in the output even when its origin or destination has no exported
feature row, with the corresponding feature columns null — and the trainer imputes
those missing values to zero before fitting. -/
theorem dataset_left_join_keeps_rows (txs : List TxRow) (feats : List FeatureCsvRow)
    (t : TxRow) (ht : t ∈ txs) :
    ∃ r ∈ build_dataset txs feats,
      r.nameOrig = t.nameOrig ∧ r.nameDest = t.nameDest ∧ r.amount = t.amount ∧
      r.isFraud = t.isFraud ∧
      ((∀ f ∈ feats, f.id ≠ t.nameOrig) →
        r.src_pagerank = none ∧ r.src_degree = none ∧ r.src_betweenness = none) ∧
      ((∀ f ∈ feats, f.id ≠ t.nameDest) →
        r.dst_pagerank = none ∧ r.dst_degree = none ∧ r.dst_betweenness = none) ∧
      ((∀ f ∈ feats, f.id ≠ t.nameOrig ∧ f.id ≠ t.nameDest) →
        trainer_row r = [t.amount, 0, 0, 0, 0, 0, 0]) := by
  obtain ⟨s, hs, hso, hsd, hsa, hsf, hsnull⟩ := merge_src_exists t feats
  obtain ⟨r, hr, hro, hrd, hra, hrf, hrp, hrg, hrb, hrnull⟩ := merge_dst_exists s feats
  have hmem : r ∈ build_dataset txs feats := by
    simp only [build_dataset, List.mem_flatMap]
    exact ⟨s, ⟨t, ht, hs⟩, hr⟩
  have hsrc : (∀ f ∈ feats, f.id ≠ t.nameOrig) →
      r.src_pagerank = none ∧ r.src_degree = none ∧ r.src_betweenness = none := by
    intro hno
    obtain ⟨h1, h2, h3⟩ := hsnull hno
    exact ⟨hrp.trans h1, hrg.trans h2, hrb.trans h3⟩
  have hdst : (∀ f ∈ feats, f.id ≠ t.nameDest) →
      r.dst_pagerank = none ∧ r.dst_degree = none ∧ r.dst_betweenness = none := by
    intro hno
    exact hrnull (by rw [hsd]; exact hno)
  refine ⟨r, hmem, hro.trans hso, hrd.trans hsd, hra.trans hsa, hrf.trans hsf,
    hsrc, hdst, ?_⟩
  intro hno
  obtain ⟨hp1, hp2, hp3⟩ := hsrc (fun f hf => (hno f hf).1)
  obtain ⟨hq1, hq2, hq3⟩ := hdst (fun f hf => (hno f hf).2)
  simp [trainer_row, features, DatasetRow.col, hp1, hp2, hp3, hq1, hq2, hq3,
    hra.trans hsa]

/-- A concrete transaction row for the C7 witness. -/
def t0 : TxRow := { nameOrig := "A1", nameDest := "B1", amount := 5, isFraud := 0 }

/-- Witness for C7: with no exported feature rows at all, the lone transaction
still appears, its feature columns are null, and the trainer's row is the
zero-imputed vector. -/
theorem dataset_left_join_keeps_rows_witness :
    ∃ r ∈ build_dataset [t0] [],
      r.nameOrig = t0.nameOrig ∧ r.nameDest = t0.nameDest ∧ r.amount = t0.amount ∧
      r.isFraud = t0.isFraud ∧
      ((∀ f ∈ ([] : List FeatureCsvRow), f.id ≠ t0.nameOrig) →
        r.src_pagerank = none ∧ r.src_degree = none ∧ r.src_betweenness = none) ∧
      ((∀ f ∈ ([] : List FeatureCsvRow), f.id ≠ t0.nameDest) →
        r.dst_pagerank = none ∧ r.dst_degree = none ∧ r.dst_betweenness = none) ∧
      ((∀ f ∈ ([] : List FeatureCsvRow), f.id ≠ t0.nameOrig ∧ f.id ≠ t0.nameDest) →
        trainer_row r = [t0.amount, 0, 0, 0, 0, 0, 0]) :=
  dataset_left_join_keeps_rows [t0] [] t0 (List.mem_singleton_self t0)

end AML
